import Mathlib

/-!
Verification of the ms_cv notebooks (assignment3).

The repository consists of three Jupyter notebooks: a PyTorch style-transfer
notebook, a TensorFlow network-visualization notebook, and a TensorFlow GAN
notebook.  The notebooks import student-implemented helpers from the `cv`
package (`cv/style_transfer_pytorch.py`, `cv/net_visualization_tensorflow.py`,
`cv/gan_tf.py`); those files are not part of the snapshot, so they are either
kept abstract (uninterpreted operations over tensor types) or, where a claim
needs their behaviour, modelled from the spec with an explicit note.

The notebook cells themselves (setup cells, grading checks, the
`style_transfer` loop, the `create_class_visualization` loop) are embedded
directly from their source.  Tensors are abstract types; scalars that the
notebook code manipulates directly (learning rates, weights, tolerances,
pixel bounds) are rationals.
-/

/-- Exceptions a notebook cell can raise explicitly: Python `assert`
(`AssertionError`) and an explicit `raise ValueError`. -/
inductive NbError : Type
  | assertionError (msg : String)
  | valueError (msg : String)
deriving DecidableEq

/-! ## Setup cells (style-transfer notebook and network-visualization notebook)

Embeddings of the two configuration-path cells.  `loadNpz` stands for
`np.load`, `loadWeights` for `model.load_weights`, `pathExists` for
`os.path.exists`. -/

/-- Setup cell of the style-transfer notebook:

    assert CHECKS_PATH is not None, "[!] Choose path to style-transfer-checks.npz"
    STYLES_FOLDER = CHECKS_PATH.replace('style-transfer-checks.npz', 'styles')
    answers = dict(np.load(CHECKS_PATH))

The result is the pair `(STYLES_FOLDER, answers)`. -/
def style_setup_cell (A : Type) (loadNpz : String → A) (checksPath : Option String) :
    Except NbError (String × A) :=
  match checksPath with
  | none => .error (.assertionError "[!] Choose path to style-transfer-checks.npz")
  | some p => .ok (p.replace "style-transfer-checks.npz" "styles", loadNpz p)

/-- A TensorFlow Keras model as the notebook manipulates it: its weights and
its `trainable` flag. -/
structure TFModel (W : Type) where
  weights : W
  trainable : Bool

/-- The model built in the success branch of the network-visualization setup
cell: `model = SqueezeNet(); model.load_weights(SAVE_PATH); model.trainable = False`. -/
def nv_loaded_model (W : Type) (loadWeights : String → W) (savePath : String) : TFModel W :=
  { weights := loadWeights savePath, trainable := false }

/-- Setup cell of the network-visualization notebook:

    assert SAVE_PATH is not None, "[!] Choose path to squeezenet.ckpt"
    if not os.path.exists(SAVE_PATH + ".index"):
        raise ValueError("You need to download SqueezeNet!")
    model = SqueezeNet()
    status = model.load_weights(SAVE_PATH)
    model.trainable = False
-/
def nv_setup_cell (W : Type) (loadWeights : String → W) (pathExists : String → Bool)
    (savePath : Option String) : Except NbError (TFModel W) :=
  match savePath with
  | none => .error (.assertionError "[!] Choose path to squeezenet.ckpt")
  | some p =>
    if pathExists (p ++ ".index") then .ok (nv_loaded_model W loadWeights p)
    else .error (.valueError "You need to download SqueezeNet!")

/-! ## Grading checks of the GAN notebook -/

/-- A numpy array as the GAN notebook's `test_sample_noise` inspects one: its
shape (`get_shape().as_list()`) and its flat list of entries.  Every value a
modelled `sample_noise` can return is of this type, so the notebook's
`isinstance(z, tf.Tensor)` assertion holds by construction. -/
structure NpTensor where
  shape : List ℕ
  entries : List ℚ
deriving DecidableEq

/-- `np.array_equal`: same shape and the same elements. -/
def np_array_equal (a b : NpTensor) : Bool :=
  decide (a.shape = b.shape ∧ a.entries = b.entries)

/-- The `test_sample_noise` cell of the GAN notebook, as a function of the
three values returned by the three calls `sample_noise(3, 4)` (`z`, `z1`,
`z2`).  It asserts, in order: `z` has shape `[batch_size, dim] = [3, 4]`;
`z` is a `tf.Tensor` (true by construction here); `not np.array_equal(z1, z2)`;
and `np.all(z1 >= -1.0) and np.all(z1 <= 1.0)`; then prints
"All tests passed!". -/
def test_sample_noise (z z1 z2 : NpTensor) : Except NbError String :=
  if z.shape = [3, 4] then
    if np_array_equal z1 z2 then .error (.assertionError "")
    else if z1.entries.all (fun x => decide (-1 ≤ x) && decide (x ≤ 1)) then
      .ok "All tests passed!"
    else .error (.assertionError "")
  else .error (.assertionError "")

/-- A line printed by one of the numeric-tolerance grading checks: either the
computed relative error, or the warning `tv_loss_test` prints when the
student's `tv_loss` contains a loop. -/
inductive PrintLine : Type
  | errorVal (e : ℚ)
  | warnLoop
deriving DecidableEq

/-- The `content_loss_test` check of the style-transfer notebook, as a
function of the reference value and the computed student output.  It computes
`error = rel_error(correct, student_output)` and prints it; it raises
nothing. -/
def content_loss_test (T : Type) (rel_error : T → T → ℚ) (correct student_output : T) :
    Except NbError (List PrintLine) :=
  .ok [.errorVal (rel_error correct student_output)]

/-- The `tv_loss_test` check of the style-transfer notebook.  It computes and
prints `rel_error(correct, student_output)`, and when the source of the
student's `tv_loss` contains a `for ... in` loop it additionally prints a
warning; it raises nothing in either case. -/
def tv_loss_test (T : Type) (rel_error : T → T → ℚ) (correct student_output : T)
    (used_loop : Bool) : Except NbError (List PrintLine) :=
  .ok ([.errorVal (rel_error correct student_output)] ++
    if used_loop then [.warnLoop] else [])

/-- The `test_lsgan_loss` check of the GAN notebook, as a function of the two
computed losses and the two reference values.  It prints the two relative
errors and raises nothing. -/
def test_lsgan_loss (T : Type) (rel_error : T → T → ℚ)
    (d_loss_true g_loss_true d_loss g_loss : T) : Except NbError (List PrintLine) :=
  .ok [.errorVal (rel_error d_loss_true d_loss), .errorVal (rel_error g_loss_true g_loss)]

/-! ## GAN architecture parameter counts -/

/-- Trainable parameters of a fully connected (`tf.keras.layers.Dense`) layer
with a bias: one weight per input-output pair plus one bias per output. -/
def dense_layer_params (in_dim out_dim : ℕ) : ℕ :=
  in_dim * out_dim + out_dim

/-- Parameter count of the discriminator architecture the GAN notebook
prescribes: 784 → 256, 256 → 256, 256 → 1, every layer with a bias (the
LeakyReLU activations are parameterless). -/
def discriminator_param_count : ℕ :=
  dense_layer_params 784 256 + dense_layer_params 256 256 + dense_layer_params 256 1

/-- Parameter count of the generator architecture the GAN notebook prescribes
for a given noise dimension: noise_dim → 1024, 1024 → 1024, 1024 → 784, every
layer with a bias (ReLU and TanH are parameterless). -/
def generator_param_count (noise_dim : ℕ) : ℕ :=
  dense_layer_params noise_dim 1024 + dense_layer_params 1024 1024 + dense_layer_params 1024 784

/-! ## Theorems for claims C3, C7, C8, C9 -/

/-- A cell that returns `.ok` completed without raising. -/
theorem except_isOk_ok (ε α : Type) (a : α) : (Except.ok a : Except ε α).isOk = true := rfl

/-- A cell that returns `.error` raised. -/
theorem except_isOk_error (ε α : Type) (e : ε) : (Except.error e : Except ε α).isOk = false := rfl

/-- C3: each notebook's setup fails on a missing configuration path and
nowhere else raises: the style-transfer setup raises `AssertionError`
"[!] Choose path to style-transfer-checks.npz" exactly when `CHECKS_PATH` is
`None`, and in that case nothing is loaded (the result does not depend on the
loader); the network-visualization setup raises `AssertionError` exactly when
`SAVE_PATH` is `None`, and otherwise raises
`ValueError "You need to download SqueezeNet!"` exactly when the checkpoint
index file `SAVE_PATH + ".index"` does not exist. -/
theorem setup_cells_error_behavior :
    (∀ (A : Type) (loadNpz : String → A) (checksPath : Option String),
      style_setup_cell A loadNpz checksPath
          = .error (.assertionError "[!] Choose path to style-transfer-checks.npz")
        ↔ checksPath = none)
    ∧ (∀ (A : Type) (load1 load2 : String → A),
        style_setup_cell A load1 none = style_setup_cell A load2 none)
    ∧ (∀ (W : Type) (loadWeights : String → W) (pathExists : String → Bool)
        (savePath : Option String),
        nv_setup_cell W loadWeights pathExists savePath
            = .error (.assertionError "[!] Choose path to squeezenet.ckpt")
          ↔ savePath = none)
    ∧ (∀ (W : Type) (loadWeights : String → W) (pathExists : String → Bool) (p : String),
        nv_setup_cell W loadWeights pathExists (some p)
            = .error (.valueError "You need to download SqueezeNet!")
          ↔ pathExists (p ++ ".index") = false) := by
  refine ⟨?_, ?_, ?_, ?_⟩
  · intro A loadNpz checksPath
    cases checksPath <;> simp [style_setup_cell]
  · intro A load1 load2
    rfl
  · intro W loadWeights pathExists savePath
    cases savePath with
    | none => simp [nv_setup_cell]
    | some p =>
      simp only [nv_setup_cell]
      constructor
      · intro h
        by_cases hp : pathExists (p ++ ".index") <;> simp [hp] at h
      · intro h
        exact absurd h (by simp)
  · intro W loadWeights pathExists p
    simp only [nv_setup_cell]
    by_cases hp : pathExists (p ++ ".index") <;> simp [hp]

/-- C7: the `test_sample_noise` cell completes without an assertion failure
exactly when the first sampled value has shape `[3, 4]` (it is a tensor by
construction), the two further samples are not element-wise equal, and every
entry of the range-checked sample lies in `[-1, 1]`. -/
theorem test_sample_noise_iff (z z1 z2 : NpTensor) :
    (test_sample_noise z z1 z2).isOk = true ↔
      (z.shape = [3, 4] ∧ np_array_equal z1 z2 = false ∧
        ∀ x ∈ z1.entries, -1 ≤ x ∧ x ≤ 1) := by
  constructor
  · intro h
    unfold test_sample_noise at h
    by_cases hs : z.shape = [3, 4]
    · rw [if_pos hs] at h
      by_cases he : np_array_equal z1 z2
      · rw [if_pos he] at h
        exact absurd h (by simp [except_isOk_error])
      · rw [if_neg he] at h
        by_cases hr : z1.entries.all (fun x => decide (-1 ≤ x) && decide (x ≤ 1)) = true
        · exact ⟨hs, by simpa using he, by simpa [List.all_eq_true] using hr⟩
        · rw [if_neg hr] at h
          exact absurd h (by simp [except_isOk_error])
    · rw [if_neg hs] at h
      exact absurd h (by simp [except_isOk_error])
  · rintro ⟨hs, he, hr⟩
    unfold test_sample_noise
    rw [if_pos hs, if_neg (by simp [he]), if_pos (by simpa [List.all_eq_true] using hr)]
    rfl

/-- C8: the fully connected GAN architectures prescribed by the notebook have
exactly the trainable-parameter counts its tests demand: 267009 for the
discriminator (784 → 256 → 256 → 1 with biases) and 1858320 for the generator
built on a 4-dimensional noise input (4 → 1024 → 1024 → 784 with biases). -/
theorem gan_architectures_param_counts :
    discriminator_param_count = 267009 ∧ generator_param_count 4 = 1858320 := by
  constructor <;> rfl

/-- C9: no numeric-tolerance grading check ever raises on a wrong answer:
`content_loss_test`, `tv_loss_test` and `test_lsgan_loss` only compute and
print relative errors, whatever value the error takes, and `tv_loss_test`
only prints a warning (without failing) when the implementation contains a
loop. -/
theorem grading_checks_never_raise (T : Type) (rel_error : T → T → ℚ)
    (correct student_output : T) (used_loop : Bool) (dt gt d g : T) :
    (content_loss_test T rel_error correct student_output).isOk = true
    ∧ (tv_loss_test T rel_error correct student_output used_loop).isOk = true
    ∧ (test_lsgan_loss T rel_error dt gt d g).isOk = true
    ∧ tv_loss_test T rel_error correct student_output true
        = .ok [.errorVal (rel_error correct student_output), .warnLoop] := by
  exact ⟨rfl, rfl, rfl, rfl⟩

/-! ## The `style_transfer` loop of the PyTorch style-transfer notebook

The loop optimizes the pixels of a generated image; the pretrained SqueezeNet
features, the student loss functions and the Adam update rule are kept
abstract (`STOps`).  Mutable tensors live in a store indexed by `ℕ`: index 0
is the generated image (`img`), index `i + 1` is the i-th parameter tensor of
the pretrained `cnn`.  `torch.optim.Adam([img], lr=...)` is modelled by an
optimizer record holding its learning rate, the indices of the parameters it
owns, and per-parameter moment state. -/

/-- A `torch.optim.Adam` instance: learning rate, owned parameter indices,
and per-parameter moment state. -/
structure Adam (S : Type) where
  lr : ℚ
  params : List ℕ
  moments : ℕ → S

/-- A freshly constructed Adam instance: all moment state initialized. -/
def Adam.mkFresh (S : Type) (init : S) (params : List ℕ) (lr : ℚ) : Adam S :=
  { lr := lr, params := params, moments := fun _ => init }

/-- `optimizer.step()`: every parameter the optimizer owns is updated by the
update rule `upd` (from the learning rate, the moment state, the current
value and the backpropagated loss); every other tensor in the store is left
untouched. -/
def Adam.step (V Loss S : Type) (upd : ℚ → S → V → Loss → V × S) (a : Adam S)
    (loss : Loss) (store : ℕ → V) : (ℕ → V) × Adam S :=
  (fun i => if i ∈ a.params then (upd a.lr (a.moments i) (store i) loss).1 else store i,
   { a with
      moments := fun i =>
        if i ∈ a.params then (upd a.lr (a.moments i) (store i) loss).2 else a.moments i })

/-- The operations `style_transfer` composes, kept abstract: image
preprocessing, SqueezeNet feature extraction (as a function of the image and
of the cnn parameter tensors, returning the feature map of each layer), the
student loss functions from `cv/style_transfer_pytorch.py`, loss addition,
uniform-noise initialization, in-place clamping, and the Adam update rule. -/
structure STOps (V Feat Loss S : Type) where
  preprocess : String → ℕ → V
  extract_features : V → (ℕ → V) → ℕ → Feat
  gram_matrix : Feat → Feat
  content_loss : ℚ → Feat → Feat → Loss
  style_loss : (ℕ → Feat) → List ℕ → List Feat → List ℚ → Loss
  tv_loss : V → ℚ → Loss
  add_loss : Loss → Loss → Loss
  uniform_noise : V → V
  clamp_data : V → ℚ → ℚ → V
  adam_update : ℚ → S → V → Loss → V × S
  adam_init : S

/-- The arguments of `style_transfer`. -/
structure STArgs where
  content_image : String
  style_image : String
  image_size : ℕ
  style_size : ℕ
  content_layer : ℕ
  content_weight : ℚ
  style_layers : List ℕ
  style_weights : List ℚ
  tv_weight : ℚ
  init_random : Bool

/-- The cnn parameter tensors of a store: everything except the image slot. -/
def st_cnn_weights (V : Type) (s : ℕ → V) : ℕ → V := fun i => s (i + 1)

/-- `content_img = preprocess(PIL.Image.open(content_image), size=image_size)`. -/
def st_content_img (V Feat Loss S : Type) (ops : STOps V Feat Loss S) (args : STArgs) : V :=
  ops.preprocess args.content_image args.image_size

/-- `content_target = extract_features(content_img, cnn)[content_layer].clone()`,
computed with the initial (pretrained) cnn weights. -/
def st_content_target (V Feat Loss S : Type) (ops : STOps V Feat Loss S) (args : STArgs)
    (w : ℕ → V) : Feat :=
  ops.extract_features (st_content_img V Feat Loss S ops args) (st_cnn_weights V w)
    args.content_layer

/-- `style_img = preprocess(PIL.Image.open(style_image), size=style_size)`. -/
def st_style_img (V Feat Loss S : Type) (ops : STOps V Feat Loss S) (args : STArgs) : V :=
  ops.preprocess args.style_image args.style_size

/-- `style_targets = [gram_matrix(extract_features(style_img, cnn)[idx].clone())
for idx in style_layers]`. -/
def st_style_targets (V Feat Loss S : Type) (ops : STOps V Feat Loss S) (args : STArgs)
    (w : ℕ → V) : List Feat :=
  args.style_layers.map fun idx =>
    ops.gram_matrix
      (ops.extract_features (st_style_img V Feat Loss S ops args) (st_cnn_weights V w) idx)

/-- The starting image: uniform random noise if `init_random`, else a clone of
the content image. -/
def st_init_img (V Feat Loss S : Type) (ops : STOps V Feat Loss S) (args : STArgs) : V :=
  if args.init_random then ops.uniform_noise (st_content_img V Feat Loss S ops args)
  else st_content_img V Feat Loss S ops args

/-- The mutable state of the optimization loop: the tensor store and the
current optimizer. -/
structure STState (V S : Type) where
  store : ℕ → V
  adam : Adam S

/-- What one loop iteration did: whether the clamp fired, the scalar loss
passed to `backward`, whether a fresh optimizer replaced the old one, and the
learning rate and parameter list of the optimizer whose `step` ran. -/
structure STIterLog (Loss : Type) where
  clamped : Bool
  loss : Loss
  fresh_optimizer : Bool
  lr_used : ℚ
  updated_params : List ℕ

/-- `if t < 190: img.data.clamp_(-1.5, 1.5)` — the store after the optional
in-place clamp at the top of iteration `t`. -/
def st_clamp_store (V Feat Loss S : Type) (ops : STOps V Feat Loss S) (t : ℕ)
    (s : ℕ → V) : ℕ → V :=
  if t < 190 then Function.update s 0 (ops.clamp_data (s 0) (-(3/2)) (3/2)) else s

/-- `if t == decay_lr_at: optimizer = torch.optim.Adam([img], lr=decayed_lr)` —
the optimizer whose `step` runs at iteration `t` (`decay_lr_at = 180`,
`decayed_lr = 0.1`). -/
def st_adam_used (V Feat Loss S : Type) (ops : STOps V Feat Loss S) (t : ℕ)
    (a : Adam S) : Adam S :=
  if t = 180 then Adam.mkFresh S ops.adam_init [0] (1/10) else a

/-- One iteration of the `style_transfer` loop body, returning the new state
and the iteration log. -/
def st_step (V Feat Loss S : Type) (ops : STOps V Feat Loss S) (args : STArgs) (w : ℕ → V)
    (t : ℕ) (st : STState V S) : STState V S × STIterLog Loss :=
  let store1 := st_clamp_store V Feat Loss S ops t st.store
  let feats := ops.extract_features (store1 0) (st_cnn_weights V store1)
  let c_loss := ops.content_loss args.content_weight (feats args.content_layer)
    (st_content_target V Feat Loss S ops args w)
  let s_loss := ops.style_loss feats args.style_layers
    (st_style_targets V Feat Loss S ops args w) args.style_weights
  let t_loss := ops.tv_loss (store1 0) args.tv_weight
  let loss := ops.add_loss (ops.add_loss c_loss s_loss) t_loss
  let adam1 := st_adam_used V Feat Loss S ops t st.adam
  let stepped := Adam.step V Loss S ops.adam_update adam1 loss store1
  (⟨stepped.1, stepped.2⟩,
   ⟨decide (t < 190), loss, decide (t = 180), adam1.lr, adam1.params⟩)

/-- The state entering the loop: the starting image is written into slot 0 of
the pretrained store `w`, and `optimizer = torch.optim.Adam([img], lr=3.0)`. -/
def st_state0 (V Feat Loss S : Type) (ops : STOps V Feat Loss S) (args : STArgs)
    (w : ℕ → V) : STState V S :=
  ⟨Function.update w 0 (st_init_img V Feat Loss S ops args),
   Adam.mkFresh S ops.adam_init [0] 3⟩

/-- The state before iteration `t` of the loop `for t in range(200)`. -/
def st_run (V Feat Loss S : Type) (ops : STOps V Feat Loss S) (args : STArgs)
    (w : ℕ → V) : ℕ → STState V S
  | 0 => st_state0 V Feat Loss S ops args w
  | t + 1 => (st_step V Feat Loss S ops args w t (st_run V Feat Loss S ops args w t)).1

/-- The log of iteration `t`. -/
def st_log (V Feat Loss S : Type) (ops : STOps V Feat Loss S) (args : STArgs)
    (w : ℕ → V) (t : ℕ) : STIterLog Loss :=
  (st_step V Feat Loss S ops args w t (st_run V Feat Loss S ops args w t)).2

/-- The store of iteration `t` after the optional clamp. -/
def st_cur_store (V Feat Loss S : Type) (ops : STOps V Feat Loss S) (args : STArgs)
    (w : ℕ → V) (t : ℕ) : ℕ → V :=
  st_clamp_store V Feat Loss S ops t ((st_run V Feat Loss S ops args w t).store)

/-- The current image of iteration `t` (after the optional clamp), on which
the losses of iteration `t` are computed. -/
def st_cur_img (V Feat Loss S : Type) (ops : STOps V Feat Loss S) (args : STArgs)
    (w : ℕ → V) (t : ℕ) : V :=
  st_cur_store V Feat Loss S ops args w t 0

/-- `feats = extract_features(img, cnn)` at iteration `t`. -/
def st_feats (V Feat Loss S : Type) (ops : STOps V Feat Loss S) (args : STArgs)
    (w : ℕ → V) (t : ℕ) : ℕ → Feat :=
  ops.extract_features (st_cur_img V Feat Loss S ops args w t)
    (st_cnn_weights V (st_cur_store V Feat Loss S ops args w t))

/-- The optimizer of the loop always owns exactly the image tensor: the
parameter list of the Adam instance is `[0]` before every iteration. -/
theorem st_adam_params_inv (V Feat Loss S : Type) (ops : STOps V Feat Loss S)
    (args : STArgs) (w : ℕ → V) : ∀ t : ℕ,
    (st_run V Feat Loss S ops args w t).adam.params = [0] := by
  intro t
  induction t with
  | zero => rfl
  | succ t ih =>
    show (st_step V Feat Loss S ops args w t _).1.adam.params = [0]
    unfold st_step Adam.step st_adam_used
    by_cases h : t = 180 <;> simp [h, Adam.mkFresh, ih]

/-- The learning rate of the loop optimizer before iteration `t`: 3.0 up to
and including iteration 180 (where the step itself already runs the fresh
optimizer), 0.1 afterwards. -/
theorem st_adam_lr_inv (V Feat Loss S : Type) (ops : STOps V Feat Loss S)
    (args : STArgs) (w : ℕ → V) : ∀ t : ℕ,
    (st_run V Feat Loss S ops args w t).adam.lr = if 181 ≤ t then 1/10 else 3 := by
  intro t
  induction t with
  | zero => rfl
  | succ t ih =>
    show (st_step V Feat Loss S ops args w t _).1.adam.lr = _
    unfold st_step Adam.step st_adam_used
    by_cases h : t = 180
    · subst h
      simp [Adam.mkFresh]
    · by_cases h2 : 181 ≤ t
      · have h3 : 181 ≤ t + 1 := by omega
        simp [h, ih, h2, h3]
      · have h3 : ¬ 181 ≤ t + 1 := by omega
        simp [h, ih, h2, h3]

/-- A PyTorch parameter tensor as the freezing cell manipulates it: its data
and its `requires_grad` flag. -/
structure TorchParam (V : Type) where
  data : V
  requires_grad : Bool

/-- The freezing cell of the style-transfer notebook:

    for param in cnn.parameters():
        param.requires_grad = False
-/
def freeze_cnn_parameters (V : Type) (ps : List (TorchParam V)) : List (TorchParam V) :=
  ps.map fun p => { p with requires_grad := false }

/-- An `optimizer.step()` leaves every tensor the optimizer does not own
untouched. -/
theorem Adam.step_frame (V Loss S : Type) (upd : ℚ → S → V → Loss → V × S) (a : Adam S)
    (loss : Loss) (store : ℕ → V) (i : ℕ) (h : i ∉ a.params) :
    (Adam.step V Loss S upd a loss store).1 i = store i := by
  unfold Adam.step
  simp [h]

/-- The in-place clamp touches only the image slot of the store. -/
theorem st_clamp_store_frame (V Feat Loss S : Type) (ops : STOps V Feat Loss S) (t : ℕ)
    (s : ℕ → V) (i : ℕ) : st_clamp_store V Feat Loss S ops t s (i + 1) = s (i + 1) := by
  unfold st_clamp_store
  split
  · exact Function.update_noteq (Nat.succ_ne_zero i) _ s
  · rfl

/-- The optimizer whose step runs at iteration `t` owns exactly the image. -/
theorem st_adam_used_params (V Feat Loss S : Type) (ops : STOps V Feat Loss S)
    (args : STArgs) (w : ℕ → V) (t : ℕ) :
    (st_adam_used V Feat Loss S ops t ((st_run V Feat Loss S ops args w t).adam)).params
      = [0] := by
  unfold st_adam_used
  by_cases h : t = 180 <;>
    simp [h, Adam.mkFresh, st_adam_params_inv V Feat Loss S ops args w t]

/-- C2: in every one of the 200 iterations of `style_transfer`, the scalar
loss passed to `backward` is the sum of exactly three terms — the content
loss at `content_layer` with `content_weight` against the content target, the
style loss over `style_layers` with `style_weights` against the Gram-matrix
targets of the style image, and the total-variation loss of the current image
with `tv_weight` — and the Adam step of that iteration updates exactly the
pixel tensor of the generated image (store slot 0). -/
theorem style_transfer_loss_three_terms (V Feat Loss S : Type)
    (ops : STOps V Feat Loss S) (args : STArgs) (w : ℕ → V) (t : Fin 200) :
    (st_log V Feat Loss S ops args w (t : ℕ)).loss =
      ops.add_loss
        (ops.add_loss
          (ops.content_loss args.content_weight
            (st_feats V Feat Loss S ops args w (t : ℕ) args.content_layer)
            (st_content_target V Feat Loss S ops args w))
          (ops.style_loss (st_feats V Feat Loss S ops args w (t : ℕ)) args.style_layers
            (st_style_targets V Feat Loss S ops args w) args.style_weights))
        (ops.tv_loss (st_cur_img V Feat Loss S ops args w (t : ℕ)) args.tv_weight)
    ∧ (st_log V Feat Loss S ops args w (t : ℕ)).updated_params = [0]
    ∧ (st_run V Feat Loss S ops args w ((t : ℕ) + 1)).store =
        (Adam.step V Loss S ops.adam_update
          (st_adam_used V Feat Loss S ops (t : ℕ)
            ((st_run V Feat Loss S ops args w (t : ℕ)).adam))
          ((st_log V Feat Loss S ops args w (t : ℕ)).loss)
          (st_cur_store V Feat Loss S ops args w (t : ℕ))).1 := by
  refine ⟨rfl, ?_, rfl⟩
  exact st_adam_used_params V Feat Loss S ops args w (t : ℕ)

/-- C10: at every iteration `t` of `style_transfer`, the image data is
clamped to `[-1.5, 1.5]` exactly when `t < 190`; the optimizer is replaced
by a fresh Adam instance exactly at `t = 180`, and that fresh instance has
learning rate 0.1 over the image alone with reset moment state; the step of
iteration `t` runs with learning rate 0.1 from iteration 180 on and with the
initial 3.0 before. -/
theorem style_transfer_clamp_and_lr_schedule (V Feat Loss S : Type)
    (ops : STOps V Feat Loss S) (args : STArgs) (w : ℕ → V) (t : Fin 200) :
    ((st_log V Feat Loss S ops args w (t : ℕ)).clamped = true ↔ (t : ℕ) < 190)
    ∧ ((st_log V Feat Loss S ops args w (t : ℕ)).fresh_optimizer = true ↔ (t : ℕ) = 180)
    ∧ (st_log V Feat Loss S ops args w (t : ℕ)).lr_used
        = (if 180 ≤ (t : ℕ) then 1/10 else 3)
    ∧ st_adam_used V Feat Loss S ops 180 ((st_run V Feat Loss S ops args w 180).adam)
        = Adam.mkFresh S ops.adam_init [0] (1/10) := by
  refine ⟨?_, ?_, ?_, ?_⟩
  · exact ⟨fun h => of_decide_eq_true h, fun h => decide_eq_true h⟩
  · exact ⟨fun h => of_decide_eq_true h, fun h => decide_eq_true h⟩
  · show (st_adam_used V Feat Loss S ops (t : ℕ)
      ((st_run V Feat Loss S ops args w (t : ℕ)).adam)).lr = _
    unfold st_adam_used
    have hlr := st_adam_lr_inv V Feat Loss S ops args w (t : ℕ)
    by_cases ht : (t : ℕ) = 180
    · simp [ht, Adam.mkFresh]
    · by_cases h2 : 180 ≤ (t : ℕ)
      · have h3 : 181 ≤ (t : ℕ) := by omega
        simp [ht, hlr, h2, h3]
      · have h3 : ¬ 181 ≤ (t : ℕ) := by omega
        simp [ht, hlr, h2, h3]
  · unfold st_adam_used
    simp

/-- C4: the pretrained feature extractor is never modified: the freezing cell
leaves every cnn parameter with `requires_grad = False`; the optimizer is
constructed over the image tensor alone (and stays that way through the lr
decay); every gradient step changes only store slot 0 (the image pixels), so
every cnn weight slot `i + 1` still holds its pretrained value after any
number of iterations; and the network-visualization setup leaves the loaded
model with `trainable = False`. -/
theorem pretrained_weights_frozen_and_unchanged (V Feat Loss S W : Type)
    (ops : STOps V Feat Loss S) (args : STArgs) (w : ℕ → V)
    (ps : List (TorchParam V)) (loadWeights : String → W) (savePath : String) :
    ((freeze_cnn_parameters V ps).all fun p => p.requires_grad == false) = true
    ∧ (st_state0 V Feat Loss S ops args w).adam.params = [0]
    ∧ (∀ t : ℕ, (st_log V Feat Loss S ops args w t).updated_params = [0])
    ∧ (∀ t i : ℕ, (st_run V Feat Loss S ops args w t).store (i + 1) = w (i + 1))
    ∧ (nv_loaded_model W loadWeights savePath).trainable = false := by
  refine ⟨?_, rfl, ?_, ?_, rfl⟩
  · simp [freeze_cnn_parameters, List.all_eq_true]
  · intro t
    exact st_adam_used_params V Feat Loss S ops args w t
  · intro t i
    induction t with
    | zero =>
      exact Function.update_noteq (Nat.succ_ne_zero i)
        (st_init_img V Feat Loss S ops args) w
    | succ t ih =>
      have hframe : (st_run V Feat Loss S ops args w (t + 1)).store (i + 1)
          = st_cur_store V Feat Loss S ops args w t (i + 1) := by
        apply Adam.step_frame
        rw [st_adam_used_params V Feat Loss S ops args w t]
        simp
      rw [hframe]
      rw [show st_cur_store V Feat Loss S ops args w t (i + 1)
            = (st_run V Feat Loss S ops args w t).store (i + 1) from
          st_clamp_store_frame V Feat Loss S ops t _ i]
      exact ih

/-! ## The fooling-image cell of the network-visualization notebook -/

/-- Helper for `tf.math.argmax`: scan of the remaining entries, carrying the
next index, the best index so far and the best value so far (ties keep the
earlier index). -/
def argmax_aux : List ℚ → ℕ → ℕ → ℚ → ℕ
  | [], _, best, _ => best
  | x :: xs, i, best, bv =>
    if bv < x then argmax_aux xs (i + 1) i x else argmax_aux xs (i + 1) best bv

/-- `tf.math.argmax`: the first index of the maximum entry (0 on the empty
list). -/
def tf_argmax : List ℚ → ℕ
  | [] => 0
  | x :: xs => argmax_aux xs 1 0 x

/-- The check after the fooling-image cell, as a function of the score matrix
`scores = model(X_fooling)`:

    assert tf.math.argmax(scores[0]).numpy() == target_y, 'The network is not fooled!'
-/
def fooling_check (scores : List (List ℚ)) (target_y : ℕ) : Except NbError Unit :=
  if tf_argmax (scores.headD []) = target_y then .ok ()
  else .error (.assertionError "The network is not fooled!")

/-- Modelled from the spec: the student function `make_fooling_image` lives in
`cv/net_visualization_tensorflow.py`, which is not part of the repository
snapshot.  Per the notebook text and the spec glossary it performs gradient
ascent over the image to maximize the target class, "stopping when the
network classifies the image as the target class".  `model` maps an image to
its batch of score vectors, `ascend` is one framework-computed
gradient-ascent step, and the fuel argument bounds the number of iterations
(`none` when the loop does not fool the network within the bound). -/
def make_fooling_image (Img : Type) (model : Img → List (List ℚ)) (ascend : Img → Img) :
    ℕ → Img → ℕ → Option Img
  | 0, _, _ => none
  | fuel + 1, X, target_y =>
    if tf_argmax ((model X).headD []) = target_y then some X
    else make_fooling_image Img model ascend fuel (ascend X) target_y

/-- Any image `make_fooling_image` returns is classified as the target
class. -/
theorem make_fooling_image_sound (Img : Type) (model : Img → List (List ℚ))
    (ascend : Img → Img) (target_y : ℕ) :
    ∀ (fuel : ℕ) (Xi Xf : Img),
      make_fooling_image Img model ascend fuel Xi target_y = some Xf →
      tf_argmax ((model Xf).headD []) = target_y := by
  intro fuel
  induction fuel with
  | zero =>
    intro Xi Xf h
    exact absurd h (by simp [make_fooling_image])
  | succ n ih =>
    intro Xi Xf h
    unfold make_fooling_image at h
    by_cases hc : tf_argmax ((model Xi).headD []) = target_y
    · rw [if_pos hc, Option.some.injEq] at h
      subst h
      exact hc
    · rw [if_neg hc] at h
      exact ih _ _ h

/-- C5: the image returned by `make_fooling_image(Xi, target_y, model)` is
classified by the model as the target class, so the notebook's subsequent
check passes on it; and that check raises
`AssertionError "The network is not fooled!"` exactly when the argmax of the
model's score vector differs from `target_y`. -/
theorem make_fooling_image_fools (Img : Type) (model : Img → List (List ℚ))
    (ascend : Img → Img) (fuel : ℕ) (Xi Xf : Img) (target_y : ℕ)
    (h : make_fooling_image Img model ascend fuel Xi target_y = some Xf) :
    tf_argmax ((model Xf).headD []) = target_y
    ∧ fooling_check (model Xf) target_y = .ok ()
    ∧ (∀ X : Img, fooling_check (model X) target_y
          = .error (.assertionError "The network is not fooled!")
        ↔ tf_argmax ((model X).headD []) ≠ target_y) := by
  have key := make_fooling_image_sound Img model ascend target_y fuel Xi Xf h
  refine ⟨key, ?_, ?_⟩
  · unfold fooling_check
    rw [if_pos key]
  · intro X
    unfold fooling_check
    by_cases hc : tf_argmax ((model X).headD []) = target_y
    · simp [hc]
    · simp [hc]

/-- Witness for `make_fooling_image_fools`: a one-step run on a concrete
two-class model that already scores the target class highest. -/
theorem make_fooling_image_fools_witness :
    make_fooling_image Unit (fun _ => [[(0 : ℚ), 1]]) id 1 () 1 = some ()
    ∧ (tf_argmax ([[(0 : ℚ), 1]].headD []) = 1
       ∧ fooling_check [[(0 : ℚ), 1]] 1 = .ok ()
       ∧ (∀ _X : Unit, fooling_check [[(0 : ℚ), 1]] 1
             = .error (.assertionError "The network is not fooled!")
           ↔ tf_argmax ([[(0 : ℚ), 1]].headD []) ≠ 1)) :=
  ⟨by decide, make_fooling_image_fools Unit (fun _ => [[(0 : ℚ), 1]]) id 1 () () 1 (by decide)⟩

/-! ## The `create_class_visualization` loop of the network-visualization
notebook

The image is a function from integer pixel coordinates to an abstract channel
value, so that the (spec-modelled) cyclic jitter has concrete semantics; the
student update step, `tf.clip_by_value` and the Gaussian blur stay abstract
(`VisOps`), as do the per-channel constants `SQUEEZENET_MEAN` and
`SQUEEZENET_STD` from `cv/image_utils.py`. -/

/-- An image indexed by integer pixel coordinates. -/
def JImg (α : Type) : Type := ℤ × ℤ → α

/-- Modelled from the spec: `jitter` is defined in
`cv/net_visualization_tensorflow.py`, which is not part of the repository
snapshot.  The notebook uses it to "randomly jitter the image a bit" and then
to "undo the jitter" with the negated offsets; it is modelled as the cyclic
roll of the image by the given offsets. -/
def jitter (α : Type) (X : JImg α) (ox oy : ℤ) : JImg α :=
  fun p => X (p.1 - ox, p.2 - oy)

/-- The abstract operations of `create_class_visualization`: the per-channel
normalization constants with the arithmetic the clip bounds are built from,
the student update step, `tf.clip_by_value`, and the Gaussian blur. -/
structure VisOps (α β : Type) where
  squeezenet_mean : β
  squeezenet_std : β
  one : β
  neg : β → β
  sub : β → β → β
  div : β → β → β
  class_visualization_update_step : JImg α → ℕ → ℚ → ℚ → JImg α
  clip_by_value : JImg α → β → β → JImg α
  blur_image : JImg α → ℚ → JImg α

/-- What one iteration of `create_class_visualization` did, in order. -/
inductive VisEvent (β : Type) : Type
  | jitterEv (ox oy : ℤ)
  | updateEv (l2_reg learning_rate : ℚ)
  | clipEv (lo hi : β)
  | blurEv (sigma : ℚ)

/-- The lower clip bound `-SQUEEZENET_MEAN / SQUEEZENET_STD`. -/
def vis_lo (α β : Type) (ops : VisOps α β) : β :=
  ops.neg (ops.div ops.squeezenet_mean ops.squeezenet_std)

/-- The upper clip bound `(1.0 - SQUEEZENET_MEAN) / SQUEEZENET_STD`. -/
def vis_hi (α β : Type) (ops : VisOps α β) : β :=
  ops.div (ops.sub ops.one ops.squeezenet_mean) ops.squeezenet_std

/-- One iteration of the `create_class_visualization` loop body:

    ox, oy = np.random.randint(0, max_jitter, 2)
    X = jitter(X, ox, oy)
    X = class_visualization_update_step(X, model, target_y, l2_reg, learning_rate)
    X = jitter(X, -ox, -oy)
    X = tf.clip_by_value(X, -SQUEEZENET_MEAN/SQUEEZENET_STD, (1.0 - SQUEEZENET_MEAN)/SQUEEZENET_STD)
    if t % blur_every == 0:
        X = blur_image(X, sigma=0.5)

returning the new image and the ordered list of operations performed. -/
def class_vis_iteration (α β : Type) (ops : VisOps α β) (target_y : ℕ)
    (l2_reg learning_rate : ℚ) (blur_every : ℕ) (t : ℕ) (ox oy : ℤ) (X : JImg α) :
    JImg α × List (VisEvent β) :=
  let X1 := jitter α X ox oy
  let X2 := ops.class_visualization_update_step X1 target_y l2_reg learning_rate
  let X3 := jitter α X2 (-ox) (-oy)
  let X4 := ops.clip_by_value X3 (vis_lo α β ops) (vis_hi α β ops)
  (if t % blur_every = 0 then ops.blur_image X4 (1/2) else X4,
   [VisEvent.jitterEv ox oy, VisEvent.updateEv l2_reg learning_rate,
    VisEvent.jitterEv (-ox) (-oy), VisEvent.clipEv (vis_lo α β ops) (vis_hi α β ops)]
     ++ if t % blur_every = 0 then [VisEvent.blurEv (1/2)] else [])

/-- The first random offset of iteration `t`: `np.random.randint(0, max_jitter)`
driven by an oracle of raw random naturals. -/
def class_vis_ox (rand : ℕ → ℕ) (max_jitter t : ℕ) : ℕ :=
  rand (2 * t) % max_jitter

/-- The second random offset of iteration `t`. -/
def class_vis_oy (rand : ℕ → ℕ) (max_jitter t : ℕ) : ℕ :=
  rand (2 * t + 1) % max_jitter

/-- The image before iteration `t` of the `create_class_visualization` loop. -/
def class_vis_run (α β : Type) (ops : VisOps α β) (rand : ℕ → ℕ) (target_y : ℕ)
    (l2_reg learning_rate : ℚ) (blur_every max_jitter : ℕ) (X0 : JImg α) : ℕ → JImg α
  | 0 => X0
  | t + 1 =>
    (class_vis_iteration α β ops target_y l2_reg learning_rate blur_every t
      ((class_vis_ox rand max_jitter t : ℕ) : ℤ)
      ((class_vis_oy rand max_jitter t : ℕ) : ℤ)
      (class_vis_run α β ops rand target_y l2_reg learning_rate blur_every max_jitter X0 t)).1

/-- The ordered list of operations iteration `t` performed. -/
def class_vis_log (α β : Type) (ops : VisOps α β) (rand : ℕ → ℕ) (target_y : ℕ)
    (l2_reg learning_rate : ℚ) (blur_every max_jitter : ℕ) (X0 : JImg α) (t : ℕ) :
    List (VisEvent β) :=
  (class_vis_iteration α β ops target_y l2_reg learning_rate blur_every t
    ((class_vis_ox rand max_jitter t : ℕ) : ℤ)
    ((class_vis_oy rand max_jitter t : ℕ) : ℤ)
    (class_vis_run α β ops rand target_y l2_reg learning_rate blur_every max_jitter X0 t)).2

/-- The image of iteration `t` after the undo of the jitter and the clip,
before the optional blur. -/
def class_vis_clipped (α β : Type) (ops : VisOps α β) (rand : ℕ → ℕ) (target_y : ℕ)
    (l2_reg learning_rate : ℚ) (blur_every max_jitter : ℕ) (X0 : JImg α) (t : ℕ) :
    JImg α :=
  ops.clip_by_value
    (jitter α
      (ops.class_visualization_update_step
        (jitter α
          (class_vis_run α β ops rand target_y l2_reg learning_rate blur_every max_jitter X0 t)
          ((class_vis_ox rand max_jitter t : ℕ) : ℤ)
          ((class_vis_oy rand max_jitter t : ℕ) : ℤ))
        target_y l2_reg learning_rate)
      (-((class_vis_ox rand max_jitter t : ℕ) : ℤ))
      (-((class_vis_oy rand max_jitter t : ℕ) : ℤ)))
    (vis_lo α β ops) (vis_hi α β ops)

/-- C6: every iteration `t` of `create_class_visualization` performs, in
order, a jitter by random offsets drawn from `[0, max_jitter)` (stated for an
arbitrary positive bound `m + 1`), one update step with `l2_reg` and
`learning_rate`, an undo of the jitter with the negated offsets, the clip to
`[-SQUEEZENET_MEAN/SQUEEZENET_STD, (1.0 - SQUEEZENET_MEAN)/SQUEEZENET_STD]`,
and a Gaussian blur with sigma 0.5 exactly when `t % blur_every == 0`;
moreover the jitter round-trips: undoing with the negated offsets restores
the original spatial arrangement. -/
theorem create_class_visualization_iteration_structure (α β : Type) (ops : VisOps α β)
    (rand : ℕ → ℕ) (target_y : ℕ) (l2_reg learning_rate : ℚ) (blur_every m : ℕ)
    (X0 : JImg α) (t : ℕ) :
    class_vis_log α β ops rand target_y l2_reg learning_rate blur_every (m + 1) X0 t =
      [VisEvent.jitterEv ((class_vis_ox rand (m + 1) t : ℕ) : ℤ)
          ((class_vis_oy rand (m + 1) t : ℕ) : ℤ),
        VisEvent.updateEv l2_reg learning_rate,
        VisEvent.jitterEv (-((class_vis_ox rand (m + 1) t : ℕ) : ℤ))
          (-((class_vis_oy rand (m + 1) t : ℕ) : ℤ)),
        VisEvent.clipEv (vis_lo α β ops) (vis_hi α β ops)]
        ++ (if t % blur_every = 0 then [VisEvent.blurEv (1/2)] else [])
    ∧ class_vis_ox rand (m + 1) t < m + 1
    ∧ class_vis_oy rand (m + 1) t < m + 1
    ∧ (∀ (X : JImg α) (a b : ℤ), jitter α (jitter α X a b) (-a) (-b) = X)
    ∧ class_vis_run α β ops rand target_y l2_reg learning_rate blur_every (m + 1) X0 (t + 1)
        = (if t % blur_every = 0
           then ops.blur_image
             (class_vis_clipped α β ops rand target_y l2_reg learning_rate blur_every
               (m + 1) X0 t) (1/2)
           else class_vis_clipped α β ops rand target_y l2_reg learning_rate blur_every
             (m + 1) X0 t) := by
  refine ⟨rfl, Nat.mod_lt _ (Nat.succ_pos m), Nat.mod_lt _ (Nat.succ_pos m), ?_, rfl⟩
  intro X a b
  funext p
  obtain ⟨i, j⟩ := p
  show X (i - -a - a, j - -b - b) = X (i, j)
  rw [show i - -a - a = i by ring, show j - -b - b = j by ring]
